import Mathlib

/-!
Verification of the warmup-orchestration core of the postal-warmup
repository, shallowly embedded in Lean 4.

Conventions of the embedding:
* Timestamps are natural numbers counting minutes since an epoch; a calendar
  day `d` spans the half-open interval of minutes starting at `1440 * d`, so
  the date of a timestamp `t` is `t / 1440` and the start-of-day timestamp
  used by the statistics recomputation is `1440 * today`.
* Each orchestrator operation receives the wall clock as a single `now`
  parameter; the (semantically irrelevant) advance of the clock between the
  individual statements of one invocation, caused by pacing sleeps, is
  abstracted away.
* Randomness (sender/recipient/category selection, generated content,
  engagement-simulation coin flips) and the two external collaborators
  (the sending HTTP API and the IMAP checker) are supplied as oracles:
  per-iteration choice records and outcome functions.
* The ORM session is modelled explicitly where commit placement matters:
  `send_daily_batch` commits once when it creates the day's execution row and
  once after the loop, exactly as in the source; the interrupted run
  (`send_daily_batch_interrupted`) exposes the committed store at the moment
  of an interruption after `k` loop iterations.
* Database rows become Lean structures with the source field names; audit
  columns (`created_at` on emails, `updated_at`) that no claim depends on are
  kept only where the logic reads them (`WarmupExecution.created_at`).
-/

/-- MessageRecord row (`Email` model in `app/models.py`). -/
structure Email where
  sender : String
  recipient : String
  subject : String
  body : String
  content_type : String
  postal_message_id : Option String
  status : String
  delivery_status : String
  sent_at : Option Nat
  check_scheduled_at : Option Nat
  checked_at : Option Nat
  is_read : Bool
  moved_to_folder : Option String
deriving DecidableEq, Repr

/-- Ramp-schedule row (`WarmupSchedule` model). `day` is an integer because
the current warmup day it is compared against is computed by Python integer
date subtraction and can be non-positive on adversarial stored dates. -/
structure WarmupSchedule where
  id : Nat
  day : Int
  target_emails : Nat
  enabled : Bool
deriving DecidableEq, Repr

/-- Execution row (`WarmupExecution` model). `date` is a day number and
`created_at` a minute timestamp. -/
structure WarmupExecution where
  id : Nat
  schedule_day_id : Nat
  date : Nat
  sent_count : Nat
  completed_at : Option Nat
  created_at : Nat
deriving DecidableEq, Repr

/-- Daily statistics row (`Statistic` model). Rates are modelled as exact
rationals; Python stores IEEE doubles, which agree with the rational values
on every instance the claims mention. -/
structure Statistic where
  date : Nat
  emails_sent : Nat
  emails_inbox : Nat
  emails_spam : Nat
  emails_failed : Nat
  bounce_count : Nat
  success_rate : Rat
  spam_rate : Rat
deriving DecidableEq, Repr

/-- The persistent (committed) store: the tables the orchestrator reads and
writes. -/
structure DB where
  emails : List Email
  executions : List WarmupExecution
  schedule : List WarmupSchedule
  statistics : List Statistic
deriving DecidableEq, Repr

/-- The configuration surface the orchestrator reads
(`app.config.get(...)` calls). -/
structure Config where
  sender_addresses : List String
  recipient_addresses : List String
  check_delay_minutes : Nat
  recipient_imap_passwords : List (String × String)
deriving DecidableEq, Repr

/-- Oracle for one send-loop iteration: the random picks, the generated
content and the outcome of the provider call for that iteration. -/
structure IterChoice where
  sender : String
  recipient : String
  content_type : String
  subject : String
  body : String
  send_success : Bool
  message_id : Option String
deriving DecidableEq, Repr

/-- `dict.get` over the configured recipient-credential map. -/
def lookupPw : List (String × String) → String → Option String
  | [], _ => none
  | (k, v) :: rest, r => if k = r then some v else lookupPw rest r

/-- Python truthiness of `if not password`: absent or empty credentials both
count as missing. -/
def pwMissing (o : Option String) : Bool :=
  match o with
  | none => true
  | some p => p = ""

/-- `WarmupExecution.query.order_by(created_at.asc()).first()`: the stored
execution with the smallest creation timestamp (ties keep the earlier row,
matching primary-key ordering of equal keys). -/
def firstByCreatedAt : List WarmupExecution → Option WarmupExecution
  | [] => none
  | e :: es =>
      some (es.foldl (fun a b => if b.created_at < a.created_at then b else a) e)

/-- `WarmupScheduler.get_current_warmup_day`: day count since the first
execution by creation time, plus one; `1` when no execution exists. -/
def get_current_warmup_day (db : DB) (today : Nat) : Int :=
  match firstByCreatedAt db.executions with
  | none => 1
  | some e => ((today : Int) - (e.date : Int)) + 1

/-- Modelled from the spec: the same day formula but anchored at the
execution with the earliest calendar date, which is how claim C9 words
"first Execution". Used only to compare against the source definition. -/
def firstByDate : List WarmupExecution → Option WarmupExecution
  | [] => none
  | e :: es =>
      some (es.foldl (fun a b => if b.date < a.date then b else a) e)

/-- Modelled from the spec: warmup day anchored at the earliest calendar
date (claim C9's reading of "first Execution"). -/
def warmup_day_by_earliest_date (db : DB) (today : Nat) : Int :=
  match firstByDate db.executions with
  | none => 1
  | some e => ((today : Int) - (e.date : Int)) + 1

/-- `WarmupExecution.query.filter_by(date=date.today()).first()`. -/
def todayExecution (l : List WarmupExecution) (d : Nat) : Option WarmupExecution :=
  l.find? (fun e => decide (e.date = d))

/-- `WarmupScheduler.get_today_schedule`: the enabled schedule row whose day
equals the current warmup day. -/
def get_today_schedule (db : DB) (today : Nat) : Option WarmupSchedule :=
  db.schedule.find?
    (fun s => decide (s.day = get_current_warmup_day db today) && s.enabled)

/-- `WarmupScheduler.should_send_today`: false when today's execution is
already complete or no enabled schedule row matches the current day. -/
def should_send_today (db : DB) (today : Nat) : Bool :=
  match todayExecution db.executions today with
  | some e =>
      if e.completed_at.isSome then false
      else (get_today_schedule db today).isSome
  | none => (get_today_schedule db today).isSome

/-- The `Email(...)` constructor call shared verbatim by
`send_daily_batch` and `trigger_manual_send`: records are created with
`delivery_status='pending'` and `check_scheduled_at=now+CHECK_DELAY`
regardless of the provider outcome. -/
def newEmail (cfg : Config) (c : IterChoice) (now : Nat) : Email :=
  { sender := c.sender
  , recipient := c.recipient
  , subject := c.subject
  , body := c.body
  , content_type := c.content_type
  , postal_message_id := c.message_id
  , status := if c.send_success then "sent" else "failed"
  , delivery_status := "pending"
  , sent_at := some now
  , check_scheduled_at := some (now + cfg.check_delay_minutes)
  , checked_at := none
  , is_read := false
  , moved_to_folder := none }

/-- The `WarmupExecution(...)` constructor call in `send_daily_batch`. -/
def freshExecution (schedule : WarmupSchedule) (today now : Nat) : WarmupExecution :=
  { id := 0
  , schedule_day_id := schedule.id
  , date := today
  , sent_count := 0
  , completed_at := none
  , created_at := now }

/-- ORM row update keyed by date: replace the first row with the same date,
else append (autoincrement insert). -/
def upsertByDate : List WarmupExecution → WarmupExecution → List WarmupExecution
  | [], e => [e]
  | x :: xs, e => if x.date = e.date then e :: xs else x :: upsertByDate xs e

/-- Same upsert for the statistics table. -/
def upsertStat : List Statistic → Statistic → List Statistic
  | [], s => [s]
  | x :: xs, s => if x.date = s.date then s :: xs else x :: upsertStat xs s

/-- `Statistic.query.filter_by(date=today).first()`. -/
def statFor (db : DB) (d : Nat) : Option Statistic :=
  db.statistics.find? (fun s => decide (s.date = d))

/-- `Statistic.calculate_rates` from `app/models.py`, over exact rationals. -/
def calculate_rates (s : Statistic) : Statistic :=
  if s.emails_sent > 0 then
    { s with
        success_rate := ((s.emails_inbox : Rat) / (s.emails_sent : Rat)) * 100
      , spam_rate := ((s.emails_spam : Rat) / (s.emails_sent : Rat)) * 100 }
  else
    { s with success_rate := 0, spam_rate := 0 }

/-- `Email.query.filter(Email.sent_at >= today_start)`: records sent today
(a NULL `sent_at` never satisfies the SQL comparison). -/
def todayEmails (today : Nat) (emails : List Email) : List Email :=
  emails.filter (fun e =>
    match e.sent_at with
    | some t => decide (1440 * today ≤ t)
    | none => false)

/-- `WarmupScheduler.update_daily_statistics` recomputation of today's row:
every counted field is overwritten from the message records sent today and
the rates recomputed, so the pre-existing row contributes nothing. -/
def recomputeStat (today : Nat) (emails : List Email) : Statistic :=
  let te := todayEmails today emails
  calculate_rates
    { date := today
    , emails_sent := te.length
    , emails_inbox := te.countP (fun e => decide (e.delivery_status = "inbox"))
    , emails_spam := te.countP (fun e => decide (e.delivery_status = "spam"))
    , emails_failed := te.countP (fun e => decide (e.status = "failed"))
    , bounce_count := te.countP (fun e => decide (e.status = "bounced"))
    , success_rate := 0
    , spam_rate := 0 }

/-- `WarmupScheduler.update_daily_statistics`: upsert today's recomputed
statistics row and commit. -/
def update_daily_statistics (now : Nat) (db : DB) : DB :=
  { db with
      statistics := upsertStat db.statistics (recomputeStat (now / 1440) db.emails) }

/-- Result dictionary of `send_daily_batch`. `provider_sends` counts the
calls made to the sending API during this invocation. -/
structure BatchResult where
  success : Bool
  error : Option String
  sent_count : Nat
  target_count : Nat
  provider_sends : Nat
deriving DecidableEq, Repr

/-- `WarmupScheduler.send_daily_batch`, run to completion. Guards in source
order: missing schedule, already-executed check, empty address pools; then
lazily create today's execution (committing it), loop `target_emails` times
building message records and incrementing `sent_count`, stamp
`completed_at`, commit once, and recompute statistics. -/
def send_daily_batch (cfg : Config) (choices : Nat → IterChoice) (now : Nat)
    (db : DB) : BatchResult × DB :=
  match get_today_schedule db (now / 1440) with
  | none =>
      ({ success := false, error := some "No schedule for today"
       , sent_count := 0, target_count := 0, provider_sends := 0 }, db)
  | some schedule =>
      if should_send_today db (now / 1440) = false then
        ({ success := false, error := some "Already executed today"
         , sent_count := 0, target_count := 0, provider_sends := 0 }, db)
      else if cfg.sender_addresses = [] ∨ cfg.recipient_addresses = [] then
        ({ success := false, error := some "No addresses configured"
         , sent_count := 0, target_count := 0, provider_sends := 0 }, db)
      else
        let exec0 := (todayExecution db.executions (now / 1440)).getD
          (freshExecution schedule (now / 1440) now)
        let dbC :=
          if (todayExecution db.executions (now / 1440)).isSome then db
          else { db with
                   executions := db.executions ++ [freshExecution schedule (now / 1440) now] }
        let target := schedule.target_emails
        let sent := (List.range target).map (fun i => newEmail cfg (choices i) now)
        let execF := { exec0 with
                         sent_count := exec0.sent_count + target
                       , completed_at := some now }
        let dbF := { dbC with
                       emails := dbC.emails ++ sent
                     , executions := upsertByDate dbC.executions execF }
        ({ success := true, error := none, sent_count := execF.sent_count
         , target_count := target, provider_sends := target },
         update_daily_statistics now dbF)

/-- `send_daily_batch` interrupted after `k` loop iterations: the first
component counts provider sends actually performed before the interruption,
the second is the committed store at that moment. Only the execution-creation
commit has run; every record and count increment staged inside the loop is
still uncommitted session state and is lost. -/
def send_daily_batch_interrupted (cfg : Config) (now : Nat) (db : DB)
    (k : Nat) : Nat × DB :=
  match get_today_schedule db (now / 1440) with
  | none => (0, db)
  | some schedule =>
      if should_send_today db (now / 1440) = false then (0, db)
      else if cfg.sender_addresses = [] ∨ cfg.recipient_addresses = [] then (0, db)
      else
        let dbC :=
          if (todayExecution db.executions (now / 1440)).isSome then db
          else { db with
                   executions := db.executions ++ [freshExecution schedule (now / 1440) now] }
        (min k schedule.target_emails, dbC)

/-- Stored `sent_count` of today's execution row. -/
def storedSentCount (db : DB) (today : Nat) : Option Nat :=
  (todayExecution db.executions today).map (fun e => e.sent_count)

/-- Delivery classifications the IMAP checker can report
(`IMAPEmailChecker.check_email` returns exactly these four). -/
inductive CheckerStatus
  | inbox
  | spam
  | unknown
  | failed
deriving DecidableEq, Repr

/-- String stored into `Email.delivery_status` for a checker classification. -/
def statusStr : CheckerStatus → String
  | CheckerStatus.inbox => "inbox"
  | CheckerStatus.spam => "spam"
  | CheckerStatus.unknown => "unknown"
  | CheckerStatus.failed => "failed"

/-- Outcome of selecting and searching one IMAP folder: a match, no match,
or a folder that does not exist (`select_folder` raising). -/
inductive SearchRes
  | found
  | notFound
  | missing
deriving DecidableEq, Repr

/-- `IMAPEmailChecker._search_in_folder`: its internal try/except turns a
missing folder (or any other error) into a plain not-found result. -/
def search_in_folder (mb : String → SearchRes) (folder : String) : Bool :=
  decide (mb folder = SearchRes.found)

/-- The fixed ordered list of conventional spam folders searched after
INBOX. -/
def spam_folders : List String :=
  ["[Gmail]/Spam", "Spam", "Junk", "SPAM", "[Gmail]/Junk"]

/-- Return dictionary of `IMAPEmailChecker.check_email`. -/
structure CheckResult where
  found : Bool
  delivery_status : CheckerStatus
  folder : Option String
deriving DecidableEq, Repr

/-- Connection oracle for one `check_email` call: either a logged-in mailbox
described by its per-folder search outcomes, or a connection/login failure
(both failure arms of the source return the same shape). -/
inductive ImapConn
  | ok (mb : String → SearchRes)
  | connFailure

/-- `IMAPEmailChecker.check_email`: INBOX first, then the conventional spam
folders in order, tolerating missing folders; not found anywhere is
`unknown`; connection or login errors are `failed`. -/
def check_email (conn : ImapConn) : CheckResult :=
  match conn with
  | ImapConn.connFailure =>
      { found := false, delivery_status := CheckerStatus.failed, folder := none }
  | ImapConn.ok mb =>
      if search_in_folder mb "INBOX" then
        { found := true, delivery_status := CheckerStatus.inbox, folder := some "INBOX" }
      else
        match spam_folders.find? (fun f => search_in_folder mb f) with
        | some f =>
            { found := true, delivery_status := CheckerStatus.spam, folder := some f }
        | none =>
            { found := false, delivery_status := CheckerStatus.unknown, folder := none }

/-- Outcome of the orchestrator's guarded call to the checker for one
record: a returned result dictionary, or an unexpected exception (the
`except` arm that marks the record failed). -/
inductive CheckOutcome
  | ok (r : CheckResult)
  | exc

/-- Per-record oracle for the engagement simulation: the three coin flips,
the folder pick among the three hard-coded folders, and whether the
best-effort IMAP move reported success. -/
structure Behavior where
  gate70 : Bool
  read80 : Bool
  move30 : Bool
  folder_pick : Fin 3
  move_success : Bool

/-- The three folders `check_pending_emails` may move an inbox message to. -/
def engagement_folders : List String := ["Archive", "Important", "Work"]

/-- Engagement simulation applied to an inbox-classified record: mark read
with the 80% flip inside the 70% gate, move with the 30% flip when the move
succeeded. -/
def engagement (b : Behavior) (e : Email) : Email :=
  if b.gate70 then
    let e1 := if b.read80 then { e with is_read := true } else e
    if b.move30 && b.move_success then
      { e1 with moved_to_folder := some (engagement_folders.get (Fin.cast (by rfl) b.folder_pick)) }
    else e1
  else e

/-- Result of processing one selected record in the pending-check loop:
its new row value, whether `check_email` was invoked for it, and whether it
was counted in `checked_count`. -/
structure ProcessedEmail where
  email : Email
  invoked : Bool
  counted : Bool

/-- Body of the `for email in pending_emails` loop for one record: missing
credential short-circuits to `unknown` without touching IMAP; an exception
from the check marks the record `failed`; otherwise the returned status is
stored and inbox records get the engagement simulation. -/
def processEmail (pw : List (String × String)) (co : CheckOutcome)
    (beh : Behavior) (now : Nat) (e : Email) : ProcessedEmail :=
  if pwMissing (lookupPw pw e.recipient) then
    { email := { e with delivery_status := "unknown", checked_at := some now }
    , invoked := false, counted := false }
  else
    match co with
    | CheckOutcome.exc =>
        { email := { e with delivery_status := "failed", checked_at := some now }
        , invoked := true, counted := false }
    | CheckOutcome.ok r =>
        let e1 := { e with delivery_status := statusStr r.delivery_status
                         , checked_at := some now }
        let e2 := if r.delivery_status = CheckerStatus.inbox then engagement beh e1 else e1
        { email := e2, invoked := true, counted := true }

/-- Eligibility filter of the pending-check query:
`delivery_status = pending`, `check_scheduled_at <= now`,
`checked_at IS NULL`. -/
def eligibleForCheck (now : Nat) (e : Email) : Bool :=
  decide (e.delivery_status = "pending")
    && (match e.check_scheduled_at with
        | some t => decide (t ≤ now)
        | none => false)
    && decide (e.checked_at = none)

/-- Accumulated outcome of one sweep: each row paired with a flag saying
whether it was selected and processed, the `checked_count`, and the
recipients for which `check_email` was invoked. -/
structure SweepOut where
  posts : List (Email × Bool)
  checked : Nat
  invoked : List String

/-- The selection-plus-loop of `check_pending_emails`: the query returns the
first 50 eligible rows in table order (`limit(50)`), so a row is selected
exactly when it is eligible and fewer than 50 eligible rows precede it; `k`
counts already-selected rows and indexes the per-record oracles. -/
def sweepGo (pw : List (String × String)) (co : Nat → CheckOutcome)
    (beh : Nat → Behavior) (now : Nat) : List Email → Nat → SweepOut
  | [], _ => { posts := [], checked := 0, invoked := [] }
  | e :: es, k =>
      if eligibleForCheck now e && decide (k < 50) then
        let pr := processEmail pw (co k) (beh k) now e
        let rest := sweepGo pw co beh now es (k + 1)
        { posts := (pr.email, true) :: rest.posts
        , checked := (if pr.counted then 1 else 0) + rest.checked
        , invoked := (if pr.invoked then [e.recipient] else []) ++ rest.invoked }
      else
        let rest := sweepGo pw co beh now es k
        { posts := (e, false) :: rest.posts
        , checked := rest.checked
        , invoked := rest.invoked }

/-- Report of one `check_pending_emails` invocation. -/
structure CheckReport where
  checked : Nat
  processed : Nat
  flags : List Bool
  invoked : List String

/-- `WarmupScheduler.check_pending_emails`: select up to 50 due pending
records, process them, commit, and recompute statistics — except that an
empty selection returns immediately without touching statistics. -/
def check_pending_emails (cfg : Config) (co : Nat → CheckOutcome)
    (beh : Nat → Behavior) (now : Nat) (db : DB) : CheckReport × DB :=
  let out := sweepGo cfg.recipient_imap_passwords co beh now db.emails 0
  let rep : CheckReport :=
    { checked := out.checked
    , processed := out.posts.countP (fun p => p.2)
    , flags := out.posts.map (fun p => p.2)
    , invoked := out.invoked }
  if db.emails.countP (eligibleForCheck now) = 0 then
    (rep, db)
  else
    (rep, update_daily_statistics now { db with emails := out.posts.map (fun p => p.1) })

/-- Result dictionary of `trigger_manual_send`. -/
structure ManualResult where
  success : Bool
  error : Option String
  sent_count : Nat
  total_count : Nat
deriving DecidableEq, Repr

/-- `WarmupScheduler.trigger_manual_send`: the same per-message construction
as the daily batch, without the schedule gate; empty (falsy) argument lists
fall back to the configured pools. -/
def trigger_manual_send (cfg : Config) (choices : Nat → IterChoice) (now : Nat)
    (count : Nat) (senders recipients : List String) (db : DB) :
    ManualResult × DB :=
  let s := if senders = [] then cfg.sender_addresses else senders
  let r := if recipients = [] then cfg.recipient_addresses else recipients
  if s = [] ∨ r = [] then
    ({ success := false, error := some "No addresses configured"
     , sent_count := 0, total_count := count }, db)
  else
    let sent := (List.range count).map (fun i => newEmail cfg (choices i) now)
    let db1 := { db with emails := db.emails ++ sent }
    ({ success := true, error := none
     , sent_count := (List.range count).countP (fun i => (choices i).send_success)
     , total_count := count },
     update_daily_statistics now db1)

/-- The MessageRecord invariant of claim C3 for one row. -/
def EmailInv (e : Email) : Prop :=
  e.checked_at.isSome = true → e.delivery_status ≠ "pending"

/-- The MessageRecord invariant over the whole store. -/
def DBInv (db : DB) : Prop :=
  ∀ e ∈ db.emails, EmailInv e

/-! ### Helper lemmas -/

theorem upsertStat_find (l : List Statistic) (s : Statistic) (d : Nat)
    (h : s.date = d) :
    (upsertStat l s).find? (fun x => decide (x.date = d)) = some s := by
  induction l with
  | nil => simp [upsertStat, List.find?, h]
  | cons x xs ih =>
      by_cases hx : x.date = s.date
      · simp [upsertStat, hx, List.find?, h]
      · have hxd : ¬ x.date = d := by
          intro hc
          exact hx (hc.trans h.symm)
        simp [upsertStat, hx, List.find?, hxd, ih]

theorem upsertByDate_find (l : List WarmupExecution) (e : WarmupExecution)
    (d : Nat) (h : e.date = d) :
    todayExecution (upsertByDate l e) d = some e := by
  induction l with
  | nil => simp [upsertByDate, todayExecution, List.find?, h]
  | cons x xs ih =>
      by_cases hx : x.date = e.date
      · simp [upsertByDate, todayExecution, hx, List.find?, h]
      · have hxd : ¬ x.date = d := by
          intro hc
          exact hx (hc.trans h.symm)
        simpa [upsertByDate, todayExecution, hx, List.find?, hxd] using ih

theorem todayExecution_date {l : List WarmupExecution} {d : Nat}
    {e : WarmupExecution} (h : todayExecution l d = some e) : e.date = d := by
  have := List.find?_some h
  simpa using this

theorem calculate_rates_counts (s : Statistic) :
    (calculate_rates s).date = s.date
    ∧ (calculate_rates s).emails_sent = s.emails_sent
    ∧ (calculate_rates s).emails_inbox = s.emails_inbox
    ∧ (calculate_rates s).emails_spam = s.emails_spam := by
  unfold calculate_rates
  by_cases h : s.emails_sent > 0 <;> simp [h]

theorem calculate_rates_success (s : Statistic) :
    (calculate_rates s).success_rate
      = 100 * (s.emails_inbox : Rat) / (s.emails_sent : Rat) := by
  unfold calculate_rates
  by_cases h : s.emails_sent > 0
  · simp only [h, if_true]
    ring
  · have h0 : s.emails_sent = 0 := by omega
    simp [h, h0]

theorem calculate_rates_spam (s : Statistic) :
    (calculate_rates s).spam_rate
      = 100 * (s.emails_spam : Rat) / (s.emails_sent : Rat) := by
  unfold calculate_rates
  by_cases h : s.emails_sent > 0
  · simp only [h, if_true]
    ring
  · have h0 : s.emails_sent = 0 := by omega
    simp [h, h0]

theorem recomputeStat_date (today : Nat) (emails : List Email) :
    (recomputeStat today emails).date = today := by
  unfold recomputeStat
  exact (calculate_rates_counts _).1

theorem statFor_update (now : Nat) (db : DB) :
    statFor (update_daily_statistics now db) (now / 1440)
      = some (recomputeStat (now / 1440) db.emails) := by
  unfold statFor update_daily_statistics
  exact upsertStat_find _ _ _ (recomputeStat_date _ _)

/-! ### Claim C4: rate derivation -/

/-- The concrete instance named by claim C4: sent=10, inbox=7, spam=2. -/
def rateExample : Statistic :=
  { date := 0, emails_sent := 10, emails_inbox := 7, emails_spam := 2
  , emails_failed := 0, bounce_count := 0, success_rate := 0, spam_rate := 0 }

/-- Claim C4: `updateDailyStatistics()` stores success rate = 100 × inbox/sent
and spam rate = 100 × spam/sent; both rates are exactly 0 when sent = 0; and
for sent=10, inbox=7, spam=2 the stored rates are 70.0 and 20.0. -/
theorem c4_rate_derivation (db : DB) (now : Nat) :
    (∃ r, statFor (update_daily_statistics now db) (now / 1440) = some r
        ∧ r.success_rate = 100 * (r.emails_inbox : Rat) / (r.emails_sent : Rat)
        ∧ r.spam_rate = 100 * (r.emails_spam : Rat) / (r.emails_sent : Rat)
        ∧ (r.emails_sent = 0 → r.success_rate = 0 ∧ r.spam_rate = 0))
    ∧ (calculate_rates rateExample).success_rate = 70
    ∧ (calculate_rates rateExample).spam_rate = 20 := by
  refine ⟨⟨recomputeStat (now / 1440) db.emails, statFor_update now db, ?_, ?_, ?_⟩, ?_, ?_⟩
  · unfold recomputeStat
    rw [calculate_rates_success, (calculate_rates_counts _).2.2.1,
      (calculate_rates_counts _).2.1]
  · unfold recomputeStat
    rw [calculate_rates_spam, (calculate_rates_counts _).2.2.2,
      (calculate_rates_counts _).2.1]
  · intro h0
    unfold recomputeStat at h0 ⊢
    rw [(calculate_rates_counts _).2.1] at h0
    rw [calculate_rates_success, calculate_rates_spam, h0]
    norm_num
  · unfold calculate_rates rateExample
    norm_num
  · unfold calculate_rates rateExample
    norm_num

/-- Witness for C4 at a concrete store, exercising both the stored-rate shape
and the concrete 70/20 instance. -/
theorem c4_witness :
    (calculate_rates rateExample).success_rate = 70
    ∧ (calculate_rates rateExample).spam_rate = 20 :=
  ⟨(c4_rate_derivation ⟨[], [], [], []⟩ 0).2.1,
   (c4_rate_derivation ⟨[], [], [], []⟩ 0).2.2⟩

/-! ### Claim C5: statistics recomputation is idempotent -/

/-- Claim C5: invoking `updateDailyStatistics()` twice in a row within the
same day, with no message records created or mutated in between, leaves the
DailyStatistic row for today identical after the second invocation. -/
theorem c5_update_statistics_idempotent (db : DB) (now1 now2 : Nat)
    (hday : now1 / 1440 = now2 / 1440) :
    statFor (update_daily_statistics now2 (update_daily_statistics now1 db))
        (now2 / 1440)
      = statFor (update_daily_statistics now1 db) (now1 / 1440) := by
  have hemails : (update_daily_statistics now1 db).emails = db.emails := rfl
  rw [statFor_update, statFor_update, hemails, hday]

/-- Witness for C5: two back-to-back recomputations at minute 0 and minute 1
of the same day. -/
theorem c5_witness :
    (0 : Nat) / 1440 = 1 / 1440
    ∧ statFor (update_daily_statistics 1 (update_daily_statistics 0 ⟨[], [], [], []⟩))
          (1 / 1440)
        = statFor (update_daily_statistics 0 ⟨[], [], [], []⟩) (0 / 1440) :=
  ⟨by decide, c5_update_statistics_idempotent ⟨[], [], [], []⟩ 0 1 (by decide)⟩

/-! ### Claim C9: current warmup day anchoring -/

theorem foldl_min_spec (meas : WarmupExecution → Nat) :
    ∀ (es : List WarmupExecution) (e : WarmupExecution),
      (es.foldl (fun a b => if meas b < meas a then b else a) e) ∈ e :: es
      ∧ ∀ b ∈ e :: es,
          meas (es.foldl (fun a b => if meas b < meas a then b else a) e) ≤ meas b := by
  intro es
  induction es with
  | nil =>
      intro e
      constructor
      · simp
      · intro b hb
        simp at hb
        simp [hb]
  | cons x xs ih =>
      intro e
      by_cases hc : meas x < meas e
      all_goals
        obtain ⟨hmem, hmin⟩ := ih (if meas x < meas e then x else e)
        simp only [hc, if_true, if_false] at hmem hmin
        constructor
      · simp only [List.foldl_cons, hc, if_true]
        rcases List.mem_cons.mp hmem with h | h
        · simp [h]
        · simp [List.mem_cons, h]
      · intro b hb
        simp only [List.foldl_cons, hc, if_true]
        rcases List.mem_cons.mp hb with h | h
        · subst h
          exact le_trans (hmin _ (List.mem_cons_self _ _)) (le_of_lt hc)
        · rcases List.mem_cons.mp h with h2 | h2
          · subst h2
            exact hmin _ (List.mem_cons_self _ _)
          · exact hmin _ (List.mem_cons_of_mem _ h2)
      · simp only [List.foldl_cons, hc, if_false]
        rcases List.mem_cons.mp hmem with h | h
        · simp [h]
        · simp [List.mem_cons, h]
      · intro b hb
        simp only [List.foldl_cons, hc, if_false]
        rcases List.mem_cons.mp hb with h | h
        · subst h
          exact hmin _ (List.mem_cons_self _ _)
        · rcases List.mem_cons.mp h with h2 | h2
          · subst h2
            exact le_trans (hmin _ (List.mem_cons_self _ _)) (le_of_not_lt hc)
          · exact hmin _ (List.mem_cons_of_mem _ h2)

/-- Concrete executions for the C9 counterexample: the row created first has
the later calendar date. -/
def exCreatedFirst : WarmupExecution :=
  { id := 1, schedule_day_id := 1, date := 10, sent_count := 0
  , completed_at := none, created_at := 0 }

def exEarlierDate : WarmupExecution :=
  { id := 2, schedule_day_id := 1, date := 5, sent_count := 0
  , completed_at := none, created_at := 7 }

def db9 : DB := ⟨[], [exCreatedFirst, exEarlierDate], [], []⟩

/-- Counterexample to claim C9 as stated: the code anchors the warmup day at
the execution with the earliest creation timestamp, not the earliest
calendar date. On a store whose creation order disagrees with date order the
two formulas differ: the code computes day 1, the claimed formula day 6. -/
theorem c9_counterexample :
    get_current_warmup_day db9 10 = 1
    ∧ warmup_day_by_earliest_date db9 10 = 6
    ∧ get_current_warmup_day db9 10 ≠ warmup_day_by_earliest_date db9 10 := by
  refine ⟨by decide, by decide, by decide⟩

/-- Claim C9 as amended: the current warmup day is
`(today − date of the execution created first) + 1`, and `1` with no
executions; whenever creation-time order agrees with calendar-date order —
as it does for every execution this scheduler creates, since each new row is
created on its own date — the anchor is also the execution with the earliest
calendar date and the claimed formula holds. -/
theorem c9_amended (db : DB) (today : Nat)
    (h : ∀ a ∈ db.executions, ∀ b ∈ db.executions,
        (a.created_at ≤ b.created_at ↔ a.date ≤ b.date)) :
    get_current_warmup_day db today = warmup_day_by_earliest_date db today
    ∧ (db.executions = [] → get_current_warmup_day db today = 1) := by
  constructor
  · cases hex : db.executions with
    | nil => simp [get_current_warmup_day, warmup_day_by_earliest_date,
        firstByCreatedAt, firstByDate, hex]
    | cons e es =>
        obtain ⟨hm1, hmin1⟩ := foldl_min_spec (fun x => x.created_at) es e
        obtain ⟨hm2, hmin2⟩ := foldl_min_spec (fun x => x.date) es e
        set m1 := es.foldl (fun a b => if b.created_at < a.created_at then b else a) e with hm1def
        set m2 := es.foldl (fun a b => if b.date < a.date then b else a) e with hm2def
        have hmem1 : m1 ∈ db.executions := by rw [hex]; exact hm1
        have hmem2 : m2 ∈ db.executions := by rw [hex]; exact hm2
        have h12 : m1.date ≤ m2.date :=
          (h m1 hmem1 m2 hmem2).mp (hmin1 m2 hm2)
        have h21 : m2.date ≤ m1.date := hmin2 m1 hm1
        have hdate : m1.date = m2.date := le_antisymm h12 h21
        simp only [get_current_warmup_day, warmup_day_by_earliest_date,
          firstByCreatedAt, firstByDate, hex]
        rw [← hm1def, ← hm2def, hdate]
  · intro hnil
    simp [get_current_warmup_day, firstByCreatedAt, hnil]

/-- Witness for the amended C9 on a store whose creation order matches date
order. -/
theorem c9_witness :
    get_current_warmup_day ⟨[], [⟨1, 1, 3, 0, none, 100⟩, ⟨2, 1, 4, 0, none, 200⟩], [], []⟩ 6
      = warmup_day_by_earliest_date
          ⟨[], [⟨1, 1, 3, 0, none, 100⟩, ⟨2, 1, 4, 0, none, 200⟩], [], []⟩ 6 :=
  (c9_amended ⟨[], [⟨1, 1, 3, 0, none, 100⟩, ⟨2, 1, 4, 0, none, 200⟩], [], []⟩ 6
    (by decide)).1

/-! ### Claim C2: per-message durability of the send loop -/

/-- A day-1 schedule row targeting three messages. -/
def sched3 : WarmupSchedule := { id := 1, day := 1, target_emails := 3, enabled := true }

/-- Minimal configuration with one sender and one recipient. -/
def cfgOne : Config :=
  { sender_addresses := ["s@example.test"]
  , recipient_addresses := ["r@example.test"]
  , check_delay_minutes := 15
  , recipient_imap_passwords := [] }

/-- A fresh store on the first warmup day, before any send. -/
def dbFresh : DB := ⟨[], [], [sched3], []⟩

/-- Counterexample to claim C2 as stated: interrupting the batch after one
message has been handed to the provider leaves the committed store with
`sent_count = 0`, not 1 — the loop stages every record and count increment in
the session and commits only after the loop, so nothing sent before the
interruption is durably persisted. -/
theorem c2_counterexample :
    (send_daily_batch_interrupted cfgOne 0 dbFresh 1).1 = 1
    ∧ storedSentCount (send_daily_batch_interrupted cfgOne 0 dbFresh 1).2 0 = some 0
    ∧ storedSentCount (send_daily_batch_interrupted cfgOne 0 dbFresh 1).2 0
        ≠ some (send_daily_batch_interrupted cfgOne 0 dbFresh 1).1 := by
  refine ⟨by decide, by decide, by decide⟩

/-- Claim C2 as amended: message records and `sent_count` increments are
staged in the ORM session during the loop and committed only once after it;
an interruption after `k` messages therefore persists no message record and
leaves every stored execution row either untouched or freshly created with
`sent_count = 0` — the count of actually sent messages is lost. -/
theorem c2_amended (cfg : Config) (now : Nat) (db : DB) (k : Nat) :
    (send_daily_batch_interrupted cfg now db k).2.emails = db.emails
    ∧ ∀ e ∈ (send_daily_batch_interrupted cfg now db k).2.executions,
        e ∈ db.executions ∨ (e.sent_count = 0 ∧ e.completed_at = none) := by
  unfold send_daily_batch_interrupted
  cases hs : get_today_schedule db (now / 1440) with
  | none => exact ⟨rfl, fun e he => Or.inl he⟩
  | some schedule =>
      by_cases hb : should_send_today db (now / 1440) = false
      · simp only [hb, if_true]
        exact ⟨by trivial, fun e he => Or.inl he⟩
      · simp only [hb, if_false]
        by_cases ha : cfg.sender_addresses = [] ∨ cfg.recipient_addresses = []
        · simp only [ha, if_true]
          exact ⟨by trivial, fun e he => Or.inl he⟩
        · simp only [ha, if_false]
          by_cases he : (todayExecution db.executions (now / 1440)).isSome
          · simp only [he, if_true]
            exact ⟨by trivial, fun e hmem => Or.inl hmem⟩
          · simp only [he, if_false]
            refine ⟨by trivial, fun e hmem => ?_⟩
            rcases List.mem_append.mp hmem with h | h
            · exact Or.inl h
            · simp only [List.mem_singleton] at h
              subst h
              exact Or.inr ⟨rfl, rfl⟩

/-- Witness for the amended C2 at the concrete interrupted run. -/
theorem c2_witness :
    (send_daily_batch_interrupted cfgOne 0 dbFresh 1).2.emails = dbFresh.emails :=
  (c2_amended cfgOne 0 dbFresh 1).1

/-! ### Claim C8: checker folder search order -/

/-- Claim C8: `check()` searches INBOX first, then the fixed ordered list of
conventional spam folders (missing folders tolerated as not-found); a message
absent from INBOX but present in a conventional spam folder yields status
`spam` together with the first matching folder name, never `unknown`. -/
theorem c8_spam_folder_search (mb : String → SearchRes)
    (hin : search_in_folder mb "INBOX" = false)
    (hex : ∃ f ∈ spam_folders, search_in_folder mb f = true) :
    (check_email (ImapConn.ok mb)).delivery_status = CheckerStatus.spam
    ∧ (∃ f ∈ spam_folders,
        (check_email (ImapConn.ok mb)).folder = some f
          ∧ search_in_folder mb f = true)
    ∧ (check_email (ImapConn.ok mb)).delivery_status ≠ CheckerStatus.unknown := by
  cases hfind : spam_folders.find? (fun f => search_in_folder mb f) with
  | none =>
      obtain ⟨f, hf, hsearch⟩ := hex
      have := List.find?_eq_none.mp hfind f hf
      simp [hsearch] at this
  | some f =>
      have hmem : f ∈ spam_folders := List.mem_of_find?_eq_some hfind
      have hp : search_in_folder mb f = true := List.find?_some hfind
      simp only [check_email, hin, Bool.false_eq_true, if_false, hfind]
      exact ⟨by trivial, ⟨f, hmem, by trivial, hp⟩, by simp⟩

/-- A mailbox for the C8 witness: the message sits in the second conventional
spam folder; the first one does not exist. -/
def mbWitness : String → SearchRes := fun f =>
  if f = "Spam" then SearchRes.found
  else if f = "[Gmail]/Spam" then SearchRes.missing
  else SearchRes.notFound

/-- Witness for C8 at the concrete mailbox. -/
theorem c8_witness :
    (check_email (ImapConn.ok mbWitness)).delivery_status = CheckerStatus.spam
    ∧ (∃ f ∈ spam_folders,
        (check_email (ImapConn.ok mbWitness)).folder = some f
          ∧ search_in_folder mbWitness f = true)
    ∧ (check_email (ImapConn.ok mbWitness)).delivery_status ≠ CheckerStatus.unknown :=
  c8_spam_folder_search mbWitness (by decide)
    ⟨"Spam", by decide, by decide⟩

/-! ### Claim C6: pending-check batch cap -/

theorem sweepGo_length (pw : List (String × String)) (co : Nat → CheckOutcome)
    (beh : Nat → Behavior) (now : Nat) :
    ∀ (l : List Email) (k : Nat),
      ((sweepGo pw co beh now l k).posts).length = l.length := by
  intro l
  induction l with
  | nil => intro k; rfl
  | cons e es ih =>
      intro k
      by_cases hc : (eligibleForCheck now e && decide (k < 50)) = true
      · simp [sweepGo, hc, ih]
      · simp [sweepGo, hc, ih]

theorem sweepGo_processed (pw : List (String × String)) (co : Nat → CheckOutcome)
    (beh : Nat → Behavior) (now : Nat) :
    ∀ (l : List Email) (k : Nat),
      ((sweepGo pw co beh now l k).posts).countP (fun p => p.2)
        = min (l.countP (eligibleForCheck now)) (50 - k) := by
  intro l
  induction l with
  | nil => intro k; simp [sweepGo]
  | cons e es ih =>
      intro k
      by_cases he : eligibleForCheck now e = true
      · by_cases hk : k < 50
        · have hc : (eligibleForCheck now e && decide (k < 50)) = true := by
            simp [he, hk]
          simp only [sweepGo, if_pos hc]
          simp [List.countP_cons, he, ih]
          rw [min_def, min_def]
          split_ifs <;> omega
        · have hc : ¬ ((eligibleForCheck now e && decide (k < 50)) = true) := by
            simp [he, hk]
          simp only [sweepGo, if_neg hc]
          simp [List.countP_cons, he, ih]
          have h0 : 50 - k = 0 := by omega
          rw [h0]
          simp
      · have hc : ¬ ((eligibleForCheck now e && decide (k < 50)) = true) := by
          simp [he]
        simp only [sweepGo, if_neg hc]
        simp [List.countP_cons, he, ih]

/-- Claim C6: one `checkPendingEmails()` invocation processes exactly
`min(#eligible, 50)` message records, selected by the pending/due/unchecked
filter; with 120 eligible records, exactly 50 are processed. -/
theorem c6_batch_cap (cfg : Config) (co : Nat → CheckOutcome)
    (beh : Nat → Behavior) (now : Nat) (db : DB) :
    (check_pending_emails cfg co beh now db).1.processed
        = min (db.emails.countP (eligibleForCheck now)) 50
    ∧ (db.emails.countP (eligibleForCheck now) = 120 →
        (check_pending_emails cfg co beh now db).1.processed = 50) := by
  have hrep : (check_pending_emails cfg co beh now db).1.processed
      = ((sweepGo cfg.recipient_imap_passwords co beh now db.emails 0).posts).countP
          (fun p => p.2) := by
    unfold check_pending_emails
    by_cases h : db.emails.countP (eligibleForCheck now) = 0 <;> simp [h]
  rw [hrep, sweepGo_processed]
  refine ⟨rfl, fun h120 => ?_⟩
  rw [h120]
  decide

/-- A due pending record for the C6 witness. -/
def ePendingDue : Email :=
  { sender := "s@example.test", recipient := "r@example.test"
  , subject := "hello", body := "hi", content_type := "personal"
  , postal_message_id := none, status := "sent", delivery_status := "pending"
  , sent_at := some 0, check_scheduled_at := some 0, checked_at := none
  , is_read := false, moved_to_folder := none }

/-- A store with 120 eligible pending records. -/
def db120 : DB := ⟨List.replicate 120 ePendingDue, [], [], []⟩

/-- Default engagement oracle for witnesses. -/
def behNone : Behavior :=
  { gate70 := false, read80 := false, move30 := false
  , folder_pick := ⟨0, by decide⟩, move_success := false }

theorem countP_replicate_true {α : Type} (p : α → Bool) (a : α) (n : Nat)
    (h : p a = true) : (List.replicate n a).countP p = n := by
  induction n with
  | zero => rfl
  | succ m ih => simp [List.replicate_succ, List.countP_cons, h, ih]

/-- Witness for C6: 120 eligible records, exactly 50 processed. -/
theorem c6_witness :
    (check_pending_emails cfgOne (fun _ => CheckOutcome.exc) (fun _ => behNone)
        0 db120).1.processed = 50 :=
  (c6_batch_cap cfgOne (fun _ => CheckOutcome.exc) (fun _ => behNone) 0 db120).2
    (countP_replicate_true (eligibleForCheck 0) ePendingDue 120 (by decide))

/-! ### Claim C7: missing credential short-circuit -/

theorem processEmail_invoked_pw (pw : List (String × String)) (co : CheckOutcome)
    (beh : Behavior) (now : Nat) (e : Email)
    (h : (processEmail pw co beh now e).invoked = true) :
    pwMissing (lookupPw pw e.recipient) = false := by
  unfold processEmail at h
  by_cases hp : pwMissing (lookupPw pw e.recipient) = true
  · simp [hp] at h
  · simpa using hp

theorem sweepGo_invoked_pw (pw : List (String × String)) (co : Nat → CheckOutcome)
    (beh : Nat → Behavior) (now : Nat) :
    ∀ (l : List Email) (k : Nat) (r : String),
      pwMissing (lookupPw pw r) = true →
      r ∉ (sweepGo pw co beh now l k).invoked := by
  intro l
  induction l with
  | nil =>
      intro k r _ hmem
      simp [sweepGo] at hmem
  | cons e es ih =>
      intro k r hr hmem
      by_cases hc : (eligibleForCheck now e && decide (k < 50)) = true
      · simp only [sweepGo, if_pos hc] at hmem
        rcases List.mem_append.mp hmem with h | h
        · by_cases hinv : (processEmail pw (co k) (beh k) now e).invoked = true
          · simp only [hinv, if_true, List.mem_singleton] at h
            subst h
            have := processEmail_invoked_pw pw (co k) (beh k) now e hinv
            rw [hr] at this
            exact Bool.true_eq_false.mp this
          · simp only [Bool.not_eq_true] at hinv
            simp [hinv] at h
        · exact ih (k + 1) r hr h
      · simp only [sweepGo, if_neg hc] at hmem
        exact ih k r hr hmem

theorem sweepGo_flag_spec (pw : List (String × String)) (co : Nat → CheckOutcome)
    (beh : Nat → Behavior) (now : Nat) :
    ∀ (l : List Email) (k i : Nat) (e : Email),
      l.get? i = some e →
      (((sweepGo pw co beh now l k).posts).map (fun p => p.2)).get? i = some true →
      eligibleForCheck now e = true
      ∧ (pwMissing (lookupPw pw e.recipient) = true →
          (((sweepGo pw co beh now l k).posts).map (fun p => p.1)).get? i
            = some { e with delivery_status := "unknown", checked_at := some now }) := by
  intro l
  induction l with
  | nil =>
      intro k i e hget
      simp at hget
  | cons x xs ih =>
      intro k i e hget hflag
      by_cases hc : (eligibleForCheck now x && decide (k < 50)) = true
      · simp only [sweepGo, if_pos hc] at hflag ⊢
        cases i with
        | zero =>
            simp only [List.get?_cons_zero, Option.some.injEq] at hget
            subst hget
            have he : eligibleForCheck now x = true := by
              have := hc
              simp only [Bool.and_eq_true] at this
              exact this.1
            refine ⟨he, fun hpw => ?_⟩
            simp only [List.map_cons, List.get?_cons_zero, Option.some.injEq]
            unfold processEmail
            simp [hpw]
        | succ j =>
            simp only [List.get?_cons_succ] at hget
            simp only [List.map_cons, List.get?_cons_succ] at hflag ⊢
            exact ih (k + 1) j e hget hflag
      · simp only [sweepGo, if_neg hc] at hflag ⊢
        cases i with
        | zero =>
            simp only [List.map_cons, List.get?_cons_zero, Option.some.injEq] at hflag
            simp at hflag
        | succ j =>
            simp only [List.get?_cons_succ] at hget
            simp only [List.map_cons, List.get?_cons_succ] at hflag ⊢
            exact ih k j e hget hflag

/-- Claim C7: a selected pending record whose recipient has no usable mailbox
credential is marked `delivery_status = unknown` with `checked_at = now`,
the mailbox protocol is never invoked for that recipient, and the sweep still
processes the full selection of remaining records. -/
theorem c7_missing_credential (cfg : Config) (co : Nat → CheckOutcome)
    (beh : Nat → Behavior) (now : Nat) (db : DB) (i : Nat) (e : Email)
    (hget : db.emails.get? i = some e)
    (hflag : ((check_pending_emails cfg co beh now db).1.flags).get? i = some true)
    (hnopw : pwMissing (lookupPw cfg.recipient_imap_passwords e.recipient) = true) :
    ((check_pending_emails cfg co beh now db).2).emails.get? i
        = some { e with delivery_status := "unknown", checked_at := some now }
    ∧ e.recipient ∉ (check_pending_emails cfg co beh now db).1.invoked
    ∧ (check_pending_emails cfg co beh now db).1.processed
        = min (db.emails.countP (eligibleForCheck now)) 50 := by
  have hflags_eq : (check_pending_emails cfg co beh now db).1.flags
      = ((sweepGo cfg.recipient_imap_passwords co beh now db.emails 0).posts).map
          (fun p => p.2) := by
    unfold check_pending_emails
    by_cases h : db.emails.countP (eligibleForCheck now) = 0 <;> simp [h]
  have hinv_eq : (check_pending_emails cfg co beh now db).1.invoked
      = (sweepGo cfg.recipient_imap_passwords co beh now db.emails 0).invoked := by
    unfold check_pending_emails
    by_cases h : db.emails.countP (eligibleForCheck now) = 0 <;> simp [h]
  rw [hflags_eq] at hflag
  obtain ⟨helig, hpost⟩ :=
    sweepGo_flag_spec cfg.recipient_imap_passwords co beh now db.emails 0 i e
      hget hflag
  have hcount : db.emails.countP (eligibleForCheck now) ≠ 0 := by
    intro h0
    have hmem : e ∈ db.emails := List.get?_mem hget
    have := (List.countP_eq_zero.mp h0) e hmem
    simp [helig] at this
  have hdb2 : ((check_pending_emails cfg co beh now db).2).emails
      = ((sweepGo cfg.recipient_imap_passwords co beh now db.emails 0).posts).map
          (fun p => p.1) := by
    unfold check_pending_emails
    simp [hcount, update_daily_statistics]
  refine ⟨?_, ?_, ?_⟩
  · rw [hdb2]
    exact hpost hnopw
  · rw [hinv_eq]
    exact sweepGo_invoked_pw cfg.recipient_imap_passwords co beh now db.emails 0
      e.recipient hnopw
  · have hrep : (check_pending_emails cfg co beh now db).1.processed
        = ((sweepGo cfg.recipient_imap_passwords co beh now db.emails 0).posts).countP
            (fun p => p.2) := by
      unfold check_pending_emails
      by_cases h : db.emails.countP (eligibleForCheck now) = 0 <;> simp [h]
    rw [hrep, sweepGo_processed]

/-- A store with one due pending record whose recipient has no credential. -/
def dbNoPw : DB := ⟨[ePendingDue], [], [], []⟩

/-- Witness for C7 at the concrete store: the single selected record is
marked unknown and checked, and no mailbox call happens for its recipient. -/
theorem c7_witness :
    ((check_pending_emails cfgOne (fun _ => CheckOutcome.exc) (fun _ => behNone)
        0 dbNoPw).2).emails.get? 0
      = some { ePendingDue with delivery_status := "unknown", checked_at := some 0 }
    ∧ ePendingDue.recipient
        ∉ (check_pending_emails cfgOne (fun _ => CheckOutcome.exc)
            (fun _ => behNone) 0 dbNoPw).1.invoked :=
  ⟨(c7_missing_credential cfgOne (fun _ => CheckOutcome.exc) (fun _ => behNone)
      0 dbNoPw 0 ePendingDue (by decide) (by decide) (by decide)).1,
   (c7_missing_credential cfgOne (fun _ => CheckOutcome.exc) (fun _ => behNone)
      0 dbNoPw 0 ePendingDue (by decide) (by decide) (by decide)).2.1⟩

/-! ### Claim C3: checked implies not pending -/

theorem statusStr_ne_pending (s : CheckerStatus) : statusStr s ≠ "pending" := by
  cases s <;> decide

theorem engagement_preserves (b : Behavior) (e : Email) :
    (engagement b e).delivery_status = e.delivery_status
    ∧ (engagement b e).checked_at = e.checked_at := by
  unfold engagement
  by_cases hg : b.gate70 = true
  · by_cases hr : b.read80 = true
    · by_cases hm : (b.move30 && b.move_success) = true <;> simp [hg, hr, hm]
    · by_cases hm : (b.move30 && b.move_success) = true <;> simp [hg, hr, hm]
  · simp [hg]

theorem processEmail_inv (pw : List (String × String)) (co : CheckOutcome)
    (beh : Behavior) (now : Nat) (e : Email) :
    EmailInv (processEmail pw co beh now e).email := by
  unfold processEmail EmailInv
  by_cases hp : pwMissing (lookupPw pw e.recipient) = true
  · simp [hp]
  · cases co with
    | exc => simp [hp]
    | ok r =>
        simp only [hp, if_neg, Bool.false_eq_true, if_false]
        by_cases hi : r.delivery_status = CheckerStatus.inbox
        · simp only [hi, if_pos]
          intro _
          rw [(engagement_preserves beh _).1]
          exact statusStr_ne_pending CheckerStatus.inbox
        · simp only [hi, if_neg, if_false]
          intro _
          exact statusStr_ne_pending r.delivery_status

theorem sweepGo_inv (pw : List (String × String)) (co : Nat → CheckOutcome)
    (beh : Nat → Behavior) (now : Nat) :
    ∀ (l : List Email) (k : Nat), (∀ e ∈ l, EmailInv e) →
      ∀ p ∈ (sweepGo pw co beh now l k).posts, EmailInv p.1 := by
  intro l
  induction l with
  | nil =>
      intro k _ p hp
      simp [sweepGo] at hp
  | cons e es ih =>
      intro k hl p hp
      have hhead : EmailInv e := hl e (List.mem_cons_self _ _)
      have htail : ∀ x ∈ es, EmailInv x := fun x hx => hl x (List.mem_cons_of_mem _ hx)
      by_cases hc : (eligibleForCheck now e && decide (k < 50)) = true
      · simp only [sweepGo, if_pos hc] at hp
        rcases List.mem_cons.mp hp with h | h
        · subst h
          exact processEmail_inv pw (co k) (beh k) now e
        · exact ih (k + 1) htail p h
      · simp only [sweepGo, if_neg hc] at hp
        rcases List.mem_cons.mp hp with h | h
        · subst h
          exact hhead
        · exact ih k htail p h

theorem sdb_emails_mem (cfg : Config) (ch : Nat → IterChoice) (now : Nat)
    (db : DB) :
    ∀ e ∈ ((send_daily_batch cfg ch now db).2).emails,
      e ∈ db.emails ∨ ∃ i, e = newEmail cfg (ch i) now := by
  intro e he
  unfold send_daily_batch at he
  rcases hs : get_today_schedule db (now / 1440) with _ | schedule
  · rw [hs] at he
    exact Or.inl he
  · rw [hs] at he
    by_cases hb : should_send_today db (now / 1440) = false
    · simp only [hb, if_true] at he
      exact Or.inl he
    · simp only [hb, if_false] at he
      by_cases ha : cfg.sender_addresses = [] ∨ cfg.recipient_addresses = []
      · simp only [ha, if_true] at he
        exact Or.inl he
      · simp only [ha, if_false, update_daily_statistics] at he
        by_cases hex : (todayExecution db.executions (now / 1440)).isSome
        · simp only [hex, if_true] at he
          rcases List.mem_append.mp he with h | h
          · exact Or.inl h
          · obtain ⟨i, _, hni⟩ := List.mem_map.mp h
            exact Or.inr ⟨i, hni.symm⟩
        · simp only [hex, if_false] at he
          rcases List.mem_append.mp he with h | h
          · exact Or.inl h
          · obtain ⟨i, _, hni⟩ := List.mem_map.mp h
            exact Or.inr ⟨i, hni.symm⟩

theorem tms_emails_mem (cfg : Config) (ch : Nat → IterChoice) (now count : Nat)
    (s r : List String) (db : DB) :
    ∀ e ∈ ((trigger_manual_send cfg ch now count s r db).2).emails,
      e ∈ db.emails ∨ ∃ i, e = newEmail cfg (ch i) now := by
  intro e he
  unfold trigger_manual_send at he
  by_cases ha : (if s = [] then cfg.sender_addresses else s) = []
      ∨ (if r = [] then cfg.recipient_addresses else r) = []
  · simp only [ha, if_true] at he
    exact Or.inl he
  · simp only [ha, if_false, update_daily_statistics] at he
    rcases List.mem_append.mp he with h | h
    · exact Or.inl h
    · obtain ⟨i, _, hni⟩ := List.mem_map.mp h
      exact Or.inr ⟨i, hni.symm⟩

theorem newEmail_inv (cfg : Config) (c : IterChoice) (now : Nat) :
    EmailInv (newEmail cfg c now) := by
  intro h
  simp [newEmail] at h

/-- Claim C3: after each orchestrator operation — daily batch, pending check,
manual send, statistics update — every message record with a set checked
timestamp has a delivery status other than pending, provided the store
satisfied the invariant beforehand. -/
theorem c3_checked_not_pending (cfg : Config) (ch chM : Nat → IterChoice)
    (co : Nat → CheckOutcome) (beh : Nat → Behavior) (now count : Nat)
    (s r : List String) (db : DB) (h : DBInv db) :
    DBInv (send_daily_batch cfg ch now db).2
    ∧ DBInv (check_pending_emails cfg co beh now db).2
    ∧ DBInv (trigger_manual_send cfg chM now count s r db).2
    ∧ DBInv (update_daily_statistics now db) := by
  refine ⟨?_, ?_, ?_, ?_⟩
  · intro e he
    rcases sdb_emails_mem cfg ch now db e he with hold | ⟨i, hnew⟩
    · exact h e hold
    · rw [hnew]
      exact newEmail_inv cfg (ch i) now
  · intro e he
    unfold check_pending_emails at he
    by_cases h0 : db.emails.countP (eligibleForCheck now) = 0
    · rw [if_pos h0] at he
      exact h e he
    · rw [if_neg h0] at he
      simp only [update_daily_statistics] at he
      obtain ⟨p, hp, hpe⟩ := List.mem_map.mp he
      rw [← hpe]
      exact sweepGo_inv cfg.recipient_imap_passwords co beh now db.emails 0 h p hp
  · intro e he
    rcases tms_emails_mem cfg chM now count s r db e he with hold | ⟨i, hnew⟩
    · exact h e hold
    · rw [hnew]
      exact newEmail_inv cfg (chM i) now
  · intro e he
    exact h e he

/-- A dummy iteration choice for witnesses. -/
def chDefault : IterChoice :=
  { sender := "s@example.test", recipient := "r@example.test"
  , content_type := "personal", subject := "hello", body := "hi"
  , send_success := true, message_id := none }

/-- Witness for C3 on the empty store. -/
theorem c3_witness :
    DBInv (update_daily_statistics 0 ⟨[], [], [], []⟩) :=
  (c3_checked_not_pending cfgOne (fun _ => chDefault) (fun _ => chDefault)
      (fun _ => CheckOutcome.exc) (fun _ => behNone) 0 0 [] [] ⟨[], [], [], []⟩
      (fun e he => absurd he (List.not_mem_nil e))).2.2.2

/-! ### Claim C10: failed sends still enter the pending-check pipeline -/

/-- Claim C10: every message record persisted by `sendDailyBatch()` or
`triggerManualSend()` — including those whose provider send failed and whose
send status is therefore `failed` — carries `delivery_status = pending`,
`check_scheduled_at = now + CHECK_DELAY`, and a null checked timestamp, and
from the scheduled time on it satisfies the exact selection filter of
`checkPendingEmails()`. -/
theorem c10_failed_sends_checked (cfg : Config) (c : IterChoice)
    (ch : Nat → IterChoice) (now t count : Nat) (s r : List String) (db : DB) :
    (newEmail cfg c now).delivery_status = "pending"
    ∧ (newEmail cfg c now).check_scheduled_at = some (now + cfg.check_delay_minutes)
    ∧ (newEmail cfg c now).checked_at = none
    ∧ (c.send_success = false → (newEmail cfg c now).status = "failed")
    ∧ (now + cfg.check_delay_minutes ≤ t →
        eligibleForCheck t (newEmail cfg c now) = true)
    ∧ (∀ e ∈ ((send_daily_batch cfg ch now db).2).emails,
        e ∈ db.emails ∨ ∃ i, e = newEmail cfg (ch i) now)
    ∧ (∀ e ∈ ((trigger_manual_send cfg ch now count s r db).2).emails,
        e ∈ db.emails ∨ ∃ i, e = newEmail cfg (ch i) now) := by
  refine ⟨rfl, rfl, rfl, ?_, ?_, sdb_emails_mem cfg ch now db,
    tms_emails_mem cfg ch now count s r db⟩
  · intro hfail
    simp [newEmail, hfail]
  · intro ht
    simp [eligibleForCheck, newEmail, ht]

/-- A failed-send iteration choice for the C10 witness. -/
def chFailed : IterChoice :=
  { sender := "s@example.test", recipient := "r@example.test"
  , content_type := "newsletter", subject := "hello", body := "hi"
  , send_success := false, message_id := none }

/-- Witness for C10: a record whose provider send failed is stored as
`status = failed`, still `pending`, and is eligible for the pending check
once its scheduled time has passed. -/
theorem c10_witness :
    (newEmail cfgOne chFailed 0).status = "failed"
    ∧ eligibleForCheck 15 (newEmail cfgOne chFailed 0) = true :=
  ⟨(c10_failed_sends_checked cfgOne chFailed (fun _ => chFailed) 0 15 0 [] []
      ⟨[], [], [], []⟩).2.2.2.1 rfl,
   (c10_failed_sends_checked cfgOne chFailed (fun _ => chFailed) 0 15 0 [] []
      ⟨[], [], [], []⟩).2.2.2.2.1 (by decide)⟩

/-! ### Claim C1: second same-day invocation is a no-op -/

theorem sdb_blocked (cfg : Config) (ch : Nat → IterChoice) (now : Nat) (db : DB)
    (hex : ∃ ex, todayExecution db.executions (now / 1440) = some ex
        ∧ ex.completed_at.isSome = true) :
    (send_daily_batch cfg ch now db).1.success = false
    ∧ ((send_daily_batch cfg ch now db).1.error).isSome = true
    ∧ (send_daily_batch cfg ch now db).1.provider_sends = 0
    ∧ (send_daily_batch cfg ch now db).2 = db := by
  obtain ⟨ex, hte, hc⟩ := hex
  have hsst : should_send_today db (now / 1440) = false := by
    unfold should_send_today
    rw [hte]
    simp [hc]
  unfold send_daily_batch
  cases hs : get_today_schedule db (now / 1440) with
  | none => exact ⟨rfl, rfl, rfl, rfl⟩
  | some s => simp [hsst]

theorem sdb_fail_frame (cfg : Config) (ch : Nat → IterChoice) (now : Nat)
    (db : DB) (h : (send_daily_batch cfg ch now db).1.success = false) :
    (send_daily_batch cfg ch now db).2 = db := by
  unfold send_daily_batch at h ⊢
  cases hs : get_today_schedule db (now / 1440) with
  | none => simp
  | some s =>
      rw [hs] at h
      by_cases hb : should_send_today db (now / 1440) = false
      · simp [hb]
      · by_cases ha : cfg.sender_addresses = [] ∨ cfg.recipient_addresses = []
        · simp [hb, ha]
        · simp [hb, ha] at h

theorem sdb_guard_fail (cfg : Config) (ch1 ch2 : Nat → IterChoice)
    (now1 now2 : Nat) (db : DB) (hday : now1 / 1440 = now2 / 1440)
    (h : (send_daily_batch cfg ch1 now1 db).1.success = false) :
    (send_daily_batch cfg ch2 now2 db).1.success = false
    ∧ ((send_daily_batch cfg ch2 now2 db).1.error).isSome = true
    ∧ (send_daily_batch cfg ch2 now2 db).1.provider_sends = 0
    ∧ (send_daily_batch cfg ch2 now2 db).2 = db := by
  have h2 : now2 / 1440 = now1 / 1440 := hday.symm
  unfold send_daily_batch at h ⊢
  rw [h2]
  cases hs : get_today_schedule db (now1 / 1440) with
  | none => simp
  | some s =>
      rw [hs] at h
      by_cases hb : should_send_today db (now1 / 1440) = false
      · simp [hb]
      · by_cases ha : cfg.sender_addresses = [] ∨ cfg.recipient_addresses = []
        · simp [hb, ha]
        · simp [hb, ha] at h

theorem sdb_success_exec (cfg : Config) (ch : Nat → IterChoice) (now : Nat)
    (db : DB) (h : (send_daily_batch cfg ch now db).1.success = true) :
    ∃ ex, todayExecution ((send_daily_batch cfg ch now db).2).executions (now / 1440)
        = some ex
      ∧ ex.completed_at.isSome = true := by
  unfold send_daily_batch at h ⊢
  cases hs : get_today_schedule db (now / 1440) with
  | none =>
      rw [hs] at h
      simp at h
  | some s =>
      rw [hs] at h
      by_cases hb : should_send_today db (now / 1440) = false
      · simp [hb] at h
      · by_cases ha : cfg.sender_addresses = [] ∨ cfg.recipient_addresses = []
        · simp [hb, ha] at h
        · cases hte : todayExecution db.executions (now / 1440) with
          | some e0 =>
              have hd : e0.date = now / 1440 := todayExecution_date hte
              simp only [hb, ha, hte, update_daily_statistics]
              simp
              exact ⟨_, upsertByDate_find _ _ _ hd, rfl⟩
          | none =>
              simp only [hb, ha, hte, update_daily_statistics]
              simp
              exact ⟨_, upsertByDate_find _ _ _ rfl, rfl⟩
/-- Claim C1: if `sendDailyBatch()` is invoked twice on the same calendar
day and the first invocation runs to completion, the second invocation makes
no provider sends, changes nothing in the store, and returns a result with
`success = false` and an explanatory error string instead of raising. -/
theorem c1_second_invocation_noop (cfg : Config) (ch1 ch2 : Nat → IterChoice)
    (now1 now2 : Nat) (db : DB) (hday : now1 / 1440 = now2 / 1440) :
    (send_daily_batch cfg ch2 now2 (send_daily_batch cfg ch1 now1 db).2).1.success
        = false
    ∧ ((send_daily_batch cfg ch2 now2
          (send_daily_batch cfg ch1 now1 db).2).1.error).isSome = true
    ∧ (send_daily_batch cfg ch2 now2
          (send_daily_batch cfg ch1 now1 db).2).1.provider_sends = 0
    ∧ (send_daily_batch cfg ch2 now2 (send_daily_batch cfg ch1 now1 db).2).2
        = (send_daily_batch cfg ch1 now1 db).2 := by
  cases hsucc : (send_daily_batch cfg ch1 now1 db).1.success with
  | false =>
      have hframe := sdb_fail_frame cfg ch1 now1 db hsucc
      rw [hframe]
      exact sdb_guard_fail cfg ch1 ch2 now1 now2 db hday hsucc
  | true =>
      obtain ⟨ex, hte, hc⟩ := sdb_success_exec cfg ch1 now1 db hsucc
      have hte2 : todayExecution
          ((send_daily_batch cfg ch1 now1 db).2).executions (now2 / 1440)
            = some ex := by
        rw [← hday]
        exact hte
      exact sdb_blocked cfg ch2 now2 _ ⟨ex, hte2, hc⟩

/-- Witness for C1: a completed first batch on day 0, a second invocation one
minute later the same day. -/
theorem c1_witness :
    (0 : Nat) / 1440 = 1 / 1440
    ∧ (send_daily_batch cfgOne (fun _ => chDefault) 1
        (send_daily_batch cfgOne (fun _ => chDefault) 0 dbFresh).2).1.success
          = false :=
  ⟨by decide,
   (c1_second_invocation_noop cfgOne (fun _ => chDefault) (fun _ => chDefault)
      0 1 dbFresh (by decide)).1⟩
